import Mathlib

/-!
# Verification of bulk-vcard-qr-codes against its specification

Shallow embedding of the Go sources of `jlnieh/bulk-vcard-qr-codes`
(the full pipeline variant with the answer-gated vCard formatter, the
tab-delimited list parser and the spreadsheet builder, plus the shared
QR-code adapter that also appears in `main.go`).

Modelling conventions:
* Go strings are modelled as Lean `String` / `List Char`; Go's byte-level
  `len` and slicing coincide with the character-level model on the ASCII
  data these functions are designed for.
* File I/O is modelled by an explicit association list from path to
  content (`FS`); a missing entry models an unreadable file.
* External library calls (QR rendering, spreadsheet writing) are modelled
  by explicit success/failure oracles, since only their success or failure
  is observable to the code under verification.
* A Go runtime panic (index out of range) is modelled as a distinct
  outcome constructor, never as an ordinary error return.
-/

/-! ## Go string primitives used by the sources -/

/-- Character-list prefix test (the semantics of `strings.HasPrefix`). -/
def isPre : List Char → List Char → Bool
  | [], _ => true
  | _ :: _, [] => false
  | a :: as, b :: bs => a == b && isPre as bs

/-- `strings.Trim(s, cut)`: removes from both ends every character that is
a member of the cutset `cut` (NOT suffix removal). -/
def trimGo (s cut : String) : String :=
  String.mk (((s.data.dropWhile (cut.data.contains ·)).reverse.dropWhile
      (cut.data.contains ·)).reverse)

/-- Worker for `strings.ReplaceAll`, non-overlapping left-to-right
replacement of `pat` by `rep`; `fuel` bounds recursion (callers pass the
input length, which suffices for the nonempty patterns used here). -/
def replaceAllChars : Nat → List Char → List Char → List Char → List Char
  | 0, s, _, _ => s
  | _ + 1, [], _, _ => []
  | f + 1, c :: cs, pat, rep =>
    if isPre pat (c :: cs) then
      rep ++ replaceAllChars f ((c :: cs).drop pat.length) pat rep
    else
      c :: replaceAllChars f cs pat rep

/-- `strings.ReplaceAll(s, pat, rep)` for nonempty `pat`. -/
def goReplaceAll (s pat rep : String) : String :=
  if pat.data = [] then s
  else String.mk (replaceAllChars s.data.length s.data pat.data rep.data)

/-- `strconv.ParseInt(s, 10, 64)`: optional sign, at least one decimal
digit, nothing else; `none` on syntax error or 64-bit overflow. -/
def parseIntGo (s : String) : Option Int :=
  let p : Bool × List Char :=
    match s.data with
    | '+' :: r => (false, r)
    | '-' :: r => (true, r)
    | r => (false, r)
  if p.2 ≠ [] ∧ p.2.all Char.isDigit then
    let n : Nat := p.2.foldl (fun a c => a * 10 + (c.toNat - 48)) 0
    if p.1 then
      if n ≤ 2 ^ 63 then some (-(n : Int)) else none
    else
      if n ≤ 2 ^ 63 - 1 then some (n : Int) else none
  else none

/-- `filepath.Join` restricted to the shapes this program uses
(no `..`, no duplicate separators). -/
def pathJoin (a b : String) : String :=
  if a = "" then b else if b = "" then a else a ++ "/" ++ b

/-! ## `formatCellNo` (part_000 lines 255-264) -/

/-- `formatCellNo`: reformat a 10-character string starting with "09" into
`+886 XXX-XXX-XXX`; anything else is returned verbatim. -/
def formatCellNo (orig : String) : String :=
  if orig.length ≠ 10 then orig
  else if isPre "09".data orig.data = false then orig
  else
    "+886 " ++ String.mk ((orig.data.drop 1).take 3) ++ "-" ++
      String.mk ((orig.data.drop 4).take 3) ++ "-" ++
      String.mk (orig.data.drop 7)

/-! ## Contact records (part_000 lines 107-123) -/

def AnswerNo : Int := 0
def AnswerYes : Int := 1
def AnswerCustom : Int := 2
def AnswerCancel : Int := -1

/-- The `contact` struct; `Answer` carries the parsed response status. -/
structure contact where
  Class : String
  Fullname : String
  VcfFname : String
  Cell : String
  Email : String
  Answer : Int
deriving DecidableEq

/-! ## `generateVCard` (part_000 lines 266-302): the text construction -/

def emailLineOf (e : String) : String := "EMAIL;TYPE=INTERNET;TYPE=WORK:" ++ e

def telLineOf (t : String) : String := "TEL;TYPE=CELL:" ++ t

/-- Lines of the vCard body once the first rune of `Fullname` has been
split off (mirrors the sequence of `WriteString` calls; the `EMAIL` and
`TEL` lines are gated on `Answer == AnswerYes` and nonempty fields). -/
def vcardLines (cnt : contact) (c0 : Char) (rest : List Char) : List String :=
  ["BEGIN:VCARD", "VERSION:3.0", "FN:" ++ cnt.Fullname,
    "N:" ++ String.mk [c0] ++ ";" ++ String.mk rest ++ ";;;"]
  ++ (if cnt.Answer = AnswerYes then
        (if cnt.Email ≠ "" then [emailLineOf cnt.Email] else [])
        ++ (if cnt.Cell ≠ "" then [telLineOf cnt.Cell] else [])
      else [])
  ++ ["NOTE:建中42屆" ++ cnt.Class ++ "班同學", "END:VCARD"]

/-- The vCard construction: `nRunes[0]` is accessed unconditionally in the
source, so an empty `Fullname` is an index-out-of-range runtime panic,
modelled as `none`. -/
def generateVCardLines (cnt : contact) : Option (List String) :=
  match cnt.Fullname.data with
  | [] => none
  | c0 :: rest => some (vcardLines cnt c0 rest)

/-- Full generated vCard text (each line `\n`-terminated, as written by the
source's `strings.Builder`). -/
def generateVCardText (cnt : contact) : Option String :=
  (generateVCardLines cnt).map (fun ls => String.join (ls.map (· ++ "\n")))

/-- A line "is the EMAIL line" when it starts with the EMAIL property
prefix the formatter writes. -/
def lineIsEmail (l : String) : Bool :=
  isPre "EMAIL;TYPE=INTERNET;TYPE=WORK:".data l.data

/-- A line "is the TEL line" when it starts with the TEL property prefix
the formatter writes. -/
def lineIsTel (l : String) : Bool :=
  isPre "TEL;TYPE=CELL:".data l.data

/-! ## QR Encoder Adapter: `geneateQRCodeByFile` (part_000 lines 178-195,
also `main.go` lines 97-114) -/

/-- The filesystem as an association list path ↦ content; a missing entry
models a file that cannot be read. -/
def FS := List (String × String)
deriving DecidableEq

def lookupFS : FS → String → Option String
  | [], _ => none
  | (q, v) :: rest, p => if q = p then some v else lookupFS rest p

/-- Writing a file (newest entry shadows older ones). -/
def setFile (fs : FS) (p v : String) : FS := (p, v) :: fs

inductive QErr where
  | invalidName
  | readErr
  | emptyErr
deriving DecidableEq

/-- The PNG output path computed by the adapter:
`strings.Trim(vcfFname, ".vcf")` (a cutset trim) followed by appending
`".png"`; `none` models the "invalid vCard file name" early error. -/
def outPngName (vcfFname : String) : Option String :=
  let fname := trimGo vcfFname ".vcf"
  if fname = "" then none else some (fname ++ ".png")

/-- `geneateQRCodeByFile` (source spelling kept). `qrFail` is the
success/failure oracle for the external `qrcode.WriteFile` call; the
source discards that call's error value, so both branches return `.ok`. -/
def geneateQRCodeByFile (qrFail : Bool) (fs : FS) (vcfFname : String) :
    Except QErr FS :=
  match outPngName vcfFname with
  | none => .error .invalidName
  | some outFname =>
    match lookupFS fs vcfFname with
    | none => .error .readErr
    | some content =>
      if content = "" then .error .emptyErr
      else .ok (if qrFail then fs else setFile fs outFname ("PNG:" ++ content))

/-! ## List Parser: `parseInputList` (part_000 lines 197-253)

The `encoding/csv` reader is modelled as an already-decoded list of
records together with the reader's `FieldsPerRecord` discipline: the first
record fixes the expected field count and any later record with a
different count makes `Read` return `ErrFieldCount`, which the source
propagates as a whole-parse error. Indexing a record beyond its length is
a Go runtime panic, modelled as the distinct outcome `panicked`. -/

inductive RowStep where
  | skip
  | keep (c : contact)
  | panicked
deriving DecidableEq

/-- Processing of a single record inside the read loop (part_000 lines
221-249): header/sequence-number skips, field extraction, answer-column
skips; out-of-range field access is `panicked`. -/
def procRow (folder : String) (rec : List String) : RowStep :=
  match rec[0]? with
  | none => .panicked
  | some f0 =>
    if f0 = "no" then .skip
    else
      match parseIntGo f0 with
      | none => .skip
      | some v =>
        if v = 0 then .skip
        else
          match rec[1]? with
          | none => .panicked
          | some c1 =>
            match rec[2]? with
            | none => .panicked
            | some c2 =>
              match rec[3]? with
              | none => .panicked
              | some c3 =>
                match rec[4]? with
                | none => .panicked
                | some c4 =>
                  match rec[5]? with
                  | none => .panicked
                  | some c5 =>
                    match rec[6]? with
                    | none => .panicked
                    | some f6 =>
                      match parseIntGo f6 with
                      | none => .skip
                      | some a =>
                        if a < 0 then .skip
                        else .keep ⟨c1, c2, pathJoin folder (c3 ++ ".vcf"),
                          formatCellNo c4, c5, a⟩

inductive ParseResult where
  | ok (lst : List contact)
  | readErr
  | csvErr
  | panicked
deriving DecidableEq

/-- The read loop: `expected` is the csv reader's field count fixed by the
first record; `acc` is the accumulated contact list (Go `append`). -/
def parseRows (folder : String) (expected : Nat) :
    List (List String) → List contact → ParseResult
  | [], acc => .ok acc
  | rec :: rest, acc =>
    if rec.length = expected then
      match procRow folder rec with
      | .panicked => .panicked
      | .skip => parseRows folder expected rest acc
      | .keep c => parseRows folder expected rest (acc ++ [c])
    else .csvErr

/-- `parseInputList`: `none` models a file that cannot be opened
(`os.Open` error, returned directly as a read error). -/
def parseInputList (folder : String) (file : Option (List (List String))) :
    ParseResult :=
  match file with
  | none => .readErr
  | some [] => .ok []
  | some (r0 :: rest) => parseRows folder r0.length (r0 :: rest) []

/-- The pure per-row record function: `some c` exactly when the row is
kept, `none` when it is skipped (or would panic). -/
def keptContact (folder : String) (rec : List String) : Option contact :=
  match procRow folder rec with
  | .keep c => some c
  | _ => none

/-! ## Spreadsheet Builder: `generateExcelFile`, `fillListSheet`,
`genQRCodeSheet` (part_000 lines 304-450)

The excelize workbook is modelled as the trace of the cell writes, picture
embeds and row-height settings the source performs; page margins, column
widths and cell styles are configuration of the external library with no
bearing on any claim, and only their failure gates are kept where the
source checks them. `ExcelOracle` decides which external calls fail. -/

structure Wb where
  sheets : List String
  cells : List (String × String × String)
  pics : List (String × String × String)
  rowHeights : List (String × Nat × Nat)
deriving DecidableEq

/-- `excelize.NewFile()` starts with the default sheet `Sheet1`. -/
def emptyWb : Wb := ⟨["Sheet1"], [], [], []⟩

def setCell (wb : Wb) (sheet cell v : String) : Wb :=
  { wb with cells := wb.cells ++ [(sheet, cell, v)] }

def addPic (wb : Wb) (sheet cell img : String) : Wb :=
  { wb with pics := wb.pics ++ [(sheet, cell, img)] }

def setRowHeight (wb : Wb) (sheet : String) (row h : Nat) : Wb :=
  { wb with rowHeights := wb.rowHeights ++ [(sheet, row, h)] }

/-- Failure oracle for the external excelize calls whose results the
source inspects. -/
structure ExcelOracle where
  setCellFail : String → String → Bool
  addPicFail : String → String → Bool
  newSheetFail : Bool
  marginsFail : Bool
  txtStyleFail : Bool
  imgStyleFail : Bool
  saveFail : Bool

/-- The oracle under which every external call succeeds. -/
def okOracle : ExcelOracle :=
  ⟨fun _ _ => false, fun _ _ => false, false, false, false, false, false⟩

/-- An oracle under which exactly the per-contact cell write
`Sheet1!A2` (the first contact's class cell) fails. -/
def orcFailA2 : ExcelOracle :=
  { okOracle with
    setCellFail := fun sheet cell => sheet == "Sheet1" && cell == "A2" }

/-- The per-contact loop of `fillListSheet` (lines 342-352). A failing
`SetCellValue` is logged and `break`s out of the loop — it does NOT make
the function return an error. -/
def fillLoop (orc : ExcelOracle) : List contact → Nat → Wb → Wb
  | [], _, wb => wb
  | cnt :: rest, idx, wb =>
    let rowID := toString (idx + 2)
    if orc.setCellFail "Sheet1" ("A" ++ rowID) then wb
    else
      let wb1 := setCell wb "Sheet1" ("A" ++ rowID) cnt.Class
      if orc.setCellFail "Sheet1" ("B" ++ rowID) then wb1
      else fillLoop orc rest (idx + 1) (setCell wb1 "Sheet1" ("B" ++ rowID) cnt.Fullname)

/-- `fillListSheet` (lines 329-355): header writes propagate failures,
the loop never does. -/
def fillListSheet (orc : ExcelOracle) (contactList : List contact) (wb : Wb) :
    Except Unit Wb :=
  if orc.setCellFail "Sheet1" "A1" then .error ()
  else
    let wb1 := setCell wb "Sheet1" "A1" "class"
    if orc.setCellFail "Sheet1" "B1" then .error ()
    else .ok (fillLoop orc contactList 0 (setCell wb1 "Sheet1" "B1" "name"))

/-- The per-contact loop of `genQRCodeSheet` (lines 421-448): row
`idx/2*2+1` holds the caption, the row below the picture; column A for
even `idx`, B for odd. Failing `SetCellValue`/`AddPicture` calls are
logged and `break` the loop without an error; `SetRowHeight` and
`SetCellStyle` results are discarded by the source. -/
def qrLoop (orc : ExcelOracle) : List contact → Nat → Wb → Wb
  | [], _, wb => wb
  | cnt :: rest, idx, wb =>
    let rowID := idx / 2 * 2 + 1
    let colID := if idx % 2 = 0 then "A" else "B"
    let wb0 := if idx % 2 = 0 then setRowHeight wb "Sheet2" (rowID + 1) 155 else wb
    let txtCellID := colID ++ toString rowID
    let imgCellID := colID ++ toString (rowID + 1)
    if orc.setCellFail "Sheet2" txtCellID then wb0
    else
      let wb1 := setCell wb0 "Sheet2" txtCellID (cnt.Class ++ " " ++ cnt.Fullname)
      if orc.addPicFail "Sheet2" imgCellID then wb1
      else qrLoop orc rest (idx + 1)
        (addPic wb1 "Sheet2" imgCellID (goReplaceAll cnt.VcfFname ".vcf" ".png"))

/-- `genQRCodeSheet` (lines 357-450): sheet creation, margins and the two
style creations propagate failures; the per-contact loop never does. -/
def genQRCodeSheet (orc : ExcelOracle) (contactList : List contact) (wb : Wb) :
    Except Unit Wb :=
  if orc.newSheetFail then .error ()
  else
    let wb1 : Wb := { wb with sheets := wb.sheets ++ ["Sheet2"] }
    if orc.marginsFail then .error ()
    else if orc.txtStyleFail then .error ()
    else if orc.imgStyleFail then .error ()
    else .ok (qrLoop orc contactList 0 wb1)

/-- `generateExcelFile` (lines 304-327): both sheet fills then `SaveAs`,
each propagating its error. -/
def generateExcelFile (orc : ExcelOracle) (contactList : List contact) :
    Except Unit Wb :=
  match fillListSheet orc contactList emptyWb with
  | .error e => .error e
  | .ok wb1 =>
    match genQRCodeSheet orc contactList wb1 with
    | .error e => .error e
    | .ok wb2 => if orc.saveFail then .error () else .ok wb2

def isOkB : Except Unit Wb → Bool
  | .ok _ => true
  | .error _ => false

def wbCellsOf : Except Unit Wb → List (String × String × String)
  | .ok wb => wb.cells
  | .error _ => []

/-! Spec-side layout formulas (from the spec's words, for comparison with
the implementation): header `A1/B1`, record `i` on row `i+2`; QR caption
of contact `i` at row `2*(i/2)+1`, picture at row `2*(i/2)+2`, column A
for even `i` and B for odd. -/

def specListCells (contactList : List contact) : List (String × String × String) :=
  [("Sheet1", "A1", "class"), ("Sheet1", "B1", "name")] ++
    contactList.enum.flatMap (fun p =>
      [("Sheet1", "A" ++ toString (p.1 + 2), p.2.Class),
       ("Sheet1", "B" ++ toString (p.1 + 2), p.2.Fullname)])

def specQRCol (i : Nat) : String := if i % 2 = 0 then "A" else "B"

def specQRCells (contactList : List contact) : List (String × String × String) :=
  contactList.enum.map (fun p =>
    ("Sheet2", specQRCol p.1 ++ toString (2 * (p.1 / 2) + 1),
      p.2.Class ++ " " ++ p.2.Fullname))

def specQRPics (contactList : List contact) : List (String × String × String) :=
  contactList.enum.map (fun p =>
    ("Sheet2", specQRCol p.1 ++ toString (2 * (p.1 / 2) + 2),
      goReplaceAll p.2.VcfFname ".vcf" ".png"))

/-! ## Sanity evaluations -/

example : formatCellNo "0912345678" = "+886 912-345-678" := by decide

example : formatCellNo "12345" = "12345" := by decide

example :
    generateVCardText ⟨"5", "王小明", "d/w.vcf", "0912345678", "a@b", 1⟩ =
      some ("BEGIN:VCARD\nVERSION:3.0\nFN:王小明\nN:王;小明;;;\n" ++
        "EMAIL;TYPE=INTERNET;TYPE=WORK:a@b\nTEL;TYPE=CELL:0912345678\n" ++
        "NOTE:建中42屆5班同學\nEND:VCARD\n") := by decide

example : outPngName "john.vcf" = some "john.png" := by decide

example : outPngName "cv.vcf" = none := by decide

example :
    parseInputList "d" (some [["no", "c", "n", "f", "p", "e", "a"],
      ["1", "42", "王小明", "wang", "0912345678", "a@b", "1"],
      ["2", "42", "李四", "li", "123", "", "-1"]]) =
    .ok [⟨"42", "王小明", "d/wang.vcf", "+886 912-345-678", "a@b", 1⟩] := by
  decide

/-! ## Helper lemmas for the vCard line analysis

Each non-EMAIL line of the generated card starts with a character other
than the EMAIL property's first character, so none of them can carry the
EMAIL prefix; likewise for TEL. All of these are definitional. -/

theorem lineIsEmail_BEGIN : lineIsEmail "BEGIN:VCARD" = false := rfl

theorem lineIsEmail_VERSION : lineIsEmail "VERSION:3.0" = false := rfl

theorem lineIsEmail_END : lineIsEmail "END:VCARD" = false := rfl

theorem lineIsEmail_FN (x : String) : lineIsEmail ("FN:" ++ x) = false := rfl

theorem lineIsEmail_N (a b : String) :
    lineIsEmail ("N:" ++ a ++ ";" ++ b ++ ";;;") = false := rfl

theorem lineIsEmail_NOTE (x : String) :
    lineIsEmail ("NOTE:建中42屆" ++ x ++ "班同學") = false := rfl

theorem lineIsEmail_tel (t : String) : lineIsEmail (telLineOf t) = false := rfl

theorem lineIsEmail_self (e : String) : lineIsEmail (emailLineOf e) = true := rfl

theorem lineIsTel_BEGIN : lineIsTel "BEGIN:VCARD" = false := rfl

theorem lineIsTel_VERSION : lineIsTel "VERSION:3.0" = false := rfl

theorem lineIsTel_END : lineIsTel "END:VCARD" = false := rfl

theorem lineIsTel_FN (x : String) : lineIsTel ("FN:" ++ x) = false := rfl

theorem lineIsTel_N (a b : String) :
    lineIsTel ("N:" ++ a ++ ";" ++ b ++ ";;;") = false := rfl

theorem lineIsTel_NOTE (x : String) :
    lineIsTel ("NOTE:建中42屆" ++ x ++ "班同學") = false := rfl

theorem lineIsTel_email (e : String) : lineIsTel (emailLineOf e) = false := rfl

theorem lineIsTel_self (t : String) : lineIsTel (telLineOf t) = true := rfl

/-- C1: for every contact record whose vCard is generated, the EMAIL line
is present iff the response status is Accepted (`Answer = 1`) and the
email is nonempty, the TEL line is present iff the status is Accepted and
the cell number is nonempty, and under any non-Accepted status neither
line appears regardless of the field contents. -/
theorem generateVCard_email_tel_iff (cnt : contact) (ls : List String)
    (h : generateVCardLines cnt = some ls) :
    ((∃ l ∈ ls, lineIsEmail l = true) ↔
        cnt.Answer = AnswerYes ∧ cnt.Email ≠ "") ∧
    ((∃ l ∈ ls, lineIsTel l = true) ↔
        cnt.Answer = AnswerYes ∧ cnt.Cell ≠ "") ∧
    (cnt.Answer ≠ AnswerYes →
      (¬ ∃ l ∈ ls, lineIsEmail l = true) ∧ ¬ ∃ l ∈ ls, lineIsTel l = true) := by
  cases hfd : cnt.Fullname.data with
  | nil => simp [generateVCardLines, hfd] at h
  | cons c0 rest =>
    simp only [generateVCardLines, hfd, Option.some.injEq] at h
    subst h
    have main :
        ((∃ l ∈ vcardLines cnt c0 rest, lineIsEmail l = true) ↔
            cnt.Answer = AnswerYes ∧ cnt.Email ≠ "") ∧
        ((∃ l ∈ vcardLines cnt c0 rest, lineIsTel l = true) ↔
            cnt.Answer = AnswerYes ∧ cnt.Cell ≠ "") := by
      by_cases hA : cnt.Answer = AnswerYes <;>
        by_cases hE : cnt.Email = "" <;>
          by_cases hC : cnt.Cell = "" <;>
            simp [vcardLines, hA, hE, hC, lineIsEmail_BEGIN, lineIsEmail_VERSION,
              lineIsEmail_END, lineIsEmail_FN, lineIsEmail_N, lineIsEmail_NOTE,
              lineIsEmail_tel, lineIsEmail_self, lineIsTel_BEGIN,
              lineIsTel_VERSION, lineIsTel_END, lineIsTel_FN, lineIsTel_N,
              lineIsTel_NOTE, lineIsTel_email, lineIsTel_self]
    refine ⟨main.1, main.2, fun hA => ⟨?_, ?_⟩⟩
    · rw [main.1]; rintro ⟨h1, -⟩; exact hA h1
    · rw [main.2]; rintro ⟨h1, -⟩; exact hA h1

/-- Witness for C1 at a concrete accepted contact with nonempty email and
cell number: both lines are present. -/
theorem generateVCard_email_tel_iff_witness :
    (∃ l ∈ ["BEGIN:VCARD", "VERSION:3.0", "FN:王小明", "N:王;小明;;;",
        "EMAIL;TYPE=INTERNET;TYPE=WORK:a@b", "TEL;TYPE=CELL:0912345678",
        "NOTE:建中42屆5班同學", "END:VCARD"], lineIsEmail l = true) ∧
    ∃ l ∈ ["BEGIN:VCARD", "VERSION:3.0", "FN:王小明", "N:王;小明;;;",
        "EMAIL;TYPE=INTERNET;TYPE=WORK:a@b", "TEL;TYPE=CELL:0912345678",
        "NOTE:建中42屆5班同學", "END:VCARD"], lineIsTel l = true := by
  have h := generateVCard_email_tel_iff
    ⟨"5", "王小明", "d/w.vcf", "0912345678", "a@b", 1⟩ _ rfl
  exact ⟨h.1.mpr ⟨rfl, by decide⟩, h.2.1.mpr ⟨rfl, by decide⟩⟩

/-- C2: `formatCellNo` rewrites exactly the length-10 inputs starting
with "09" into `+886 ` followed by the three dash-separated groups, leaves
every other input unchanged, and is idempotent. -/
theorem formatCellNo_spec (s : String) :
    (formatCellNo s =
      if s.length = 10 ∧ isPre "09".data s.data = true then
        "+886 " ++ String.mk ((s.data.drop 1).take 3) ++ "-" ++
          String.mk ((s.data.drop 4).take 3) ++ "-" ++
          String.mk (s.data.drop 7)
      else s) ∧
    formatCellNo (formatCellNo s) = formatCellNo s := by
  have hlen : s.length = s.data.length := rfl
  have hnot10 : ∀ t : String, t.length ≠ 10 → formatCellNo t = t := by
    intro t ht
    simp [formatCellNo, ht]
  by_cases h1 : s.length = 10
  · by_cases h2 : isPre "09".data s.data = true
    · have hform : formatCellNo s =
          "+886 " ++ String.mk ((s.data.drop 1).take 3) ++ "-" ++
            String.mk ((s.data.drop 4).take 3) ++ "-" ++
            String.mk (s.data.drop 7) := by
        simp [formatCellNo, h1, h2]
      have hdl : s.data.length = 10 := hlen ▸ h1
      have hlen16 : (formatCellNo s).length = 16 := by
        rw [hform]
        simp [String.length_append, String.length_mk, List.length_take,
          List.length_drop, hdl]
        decide
      constructor
      · rw [hform]; simp [h1, h2]
      · rw [hnot10 (formatCellNo s) (by rw [hlen16]; decide)]
    · have h2f : isPre "09".data s.data = false := by
        cases hx : isPre "09".data s.data
        · rfl
        · exact absurd hx h2
      have hid : formatCellNo s = s := by simp [formatCellNo, h1, h2f]
      refine ⟨by rw [hid]; simp [h1, h2], by rw [hid, hid]⟩
  · have hid : formatCellNo s = s := by simp [formatCellNo, h1]
    refine ⟨by rw [hid]; simp [h1], by rw [hid, hid]⟩

/-- C10: the vCard construction indexes the first rune of `Fullname`
unconditionally, so it panics (models as `none`) exactly on contacts with
empty `Fullname`; every call must satisfy `Fullname ≠ ""`. -/
theorem generateVCard_empty_name_panics (cnt : contact) :
    generateVCardLines cnt = none ↔ cnt.Fullname = "" := by
  constructor
  · intro h
    cases hfd : cnt.Fullname.data with
    | nil => exact String.ext_iff.mpr (by simp [hfd])
    | cons c0 rest => simp [generateVCardLines, hfd] at h
  · intro h
    unfold generateVCardLines
    rw [h]

/-- C3 (counterexample): the source discards the error value of
`qrcode.WriteFile`, so when the QR-rendering/PNG-write step fails
(`qrFail = true`) the adapter still reports success even though no PNG
exists afterwards — contradicting the claim that every failure of that
step propagates as an error. -/
theorem geneateQRCodeByFile_swallows_qr_failure :
    geneateQRCodeByFile true [("a.vcf", "BEGIN")] "a.vcf" =
      .ok [("a.vcf", "BEGIN")] ∧
    lookupFS [("a.vcf", "BEGIN")] "a.png" = none := by
  exact ⟨rfl, rfl⟩

/-- C3 (amended): the adapter returns an error and writes nothing when
the source vCard cannot be read or when its content is empty; but a
failure of the QR-rendering/PNG-write step is silently ignored and the
adapter returns success with no PNG produced. -/
theorem geneateQRCodeByFile_error_cases (fs : FS) (vcf : String) (qrFail : Bool)
    (hname : trimGo vcf ".vcf" ≠ "") :
    (lookupFS fs vcf = none →
      geneateQRCodeByFile qrFail fs vcf = .error .readErr) ∧
    (lookupFS fs vcf = some "" →
      geneateQRCodeByFile qrFail fs vcf = .error .emptyErr) ∧
    ∀ content, lookupFS fs vcf = some content → content ≠ "" →
      geneateQRCodeByFile true fs vcf = .ok fs := by
  refine ⟨fun h => ?_, fun h => ?_, fun content h hc => ?_⟩
  · simp [geneateQRCodeByFile, outPngName, hname, h]
  · simp [geneateQRCodeByFile, outPngName, hname, h]
  · simp [geneateQRCodeByFile, outPngName, hname, h, hc]

/-- Witness for the amended C3 at concrete inputs: unreadable file and
empty file each produce the corresponding error. -/
theorem geneateQRCodeByFile_error_cases_witness :
    geneateQRCodeByFile false [("x.vcf", "hi")] "missing.vcf" =
      .error .readErr ∧
    geneateQRCodeByFile false [("e.vcf", "")] "e.vcf" = .error .emptyErr := by
  exact ⟨(geneateQRCodeByFile_error_cases [("x.vcf", "hi")] "missing.vcf" false
      (by decide)).1 rfl,
    (geneateQRCodeByFile_error_cases [("e.vcf", "")] "e.vcf" false
      (by decide)).2.1 rfl⟩

/-- C4: evaluation at the failing inputs. `strings.Trim(vcfFname, ".vcf")`
trims the character SET `{'.','v','c','f'}` from both ends, so
`cat.vcf` yields PNG path `at.png`, not `cat.png`; and the builder's
`strings.ReplaceAll` rewrites every `.vcf` occurrence, so
`d/a.vcf.vcf` yields image path `d/a.png.png`, not `d/a.vcf.png`. -/
theorem qr_output_path_eval :
    outPngName "cat.vcf" = some "at.png" ∧
    outPngName "cat.vcf" ≠ some "cat.png" ∧
    goReplaceAll "d/a.vcf.vcf" ".vcf" ".png" = "d/a.png.png" ∧
    goReplaceAll "d/a.vcf.vcf" ".vcf" ".png" ≠ "d/a.vcf.png" := by
  exact ⟨by decide, by decide, by decide, by decide⟩

/-- C5: a row (of the expected csv width) whose first column is "no",
parses to 0 or fails integer parsing, or whose response-status column is
negative or fails parsing, contributes no contact record and the read
loop continues with the remaining rows, without error. -/
theorem parseRows_skips_bad_row (folder : String) (expected : Nat)
    (rec : List String) (rest : List (List String)) (acc : List contact)
    (hlen : rec.length = expected)
    (hbad : rec[0]? = some "no"
      ∨ (∃ f0, rec[0]? = some f0 ∧
          (parseIntGo f0 = none ∨ parseIntGo f0 = some 0))
      ∨ (∃ f6, rec[6]? = some f6 ∧
          (parseIntGo f6 = none ∨ ∃ v, parseIntGo f6 = some v ∧ v < 0))) :
    parseRows folder expected (rec :: rest) acc =
      parseRows folder expected rest acc := by
  have hskip : procRow folder rec = .skip := by
    rcases hbad with h0 | ⟨f0, h0, hp⟩ | ⟨f6, h6, hp⟩
    · simp [procRow, h0]
    · by_cases hno : f0 = "no"
      · simp [procRow, h0, hno]
      · rcases hp with hp | hp
        · simp [procRow, h0, hno, hp]
        · simp [procRow, h0, hno, hp]
    · have hlen7 : 6 < rec.length := (List.getElem?_eq_some.mp h6).1
      obtain ⟨f0, h0⟩ : ∃ f0, rec[0]? = some f0 :=
        ⟨_, List.getElem?_eq_getElem (by omega)⟩
      by_cases hno : f0 = "no"
      · simp [procRow, h0, hno]
      · cases hp0 : parseIntGo f0 with
        | none => simp [procRow, h0, hno, hp0]
        | some v =>
          by_cases hv : v = 0
          · simp [procRow, h0, hno, hp0, hv]
          · obtain ⟨f1, h1⟩ : ∃ f1, rec[1]? = some f1 :=
              ⟨_, List.getElem?_eq_getElem (by omega)⟩
            obtain ⟨f2, h2⟩ : ∃ f2, rec[2]? = some f2 :=
              ⟨_, List.getElem?_eq_getElem (by omega)⟩
            obtain ⟨f3, h3⟩ : ∃ f3, rec[3]? = some f3 :=
              ⟨_, List.getElem?_eq_getElem (by omega)⟩
            obtain ⟨f4, h4⟩ : ∃ f4, rec[4]? = some f4 :=
              ⟨_, List.getElem?_eq_getElem (by omega)⟩
            obtain ⟨f5, h5⟩ : ∃ f5, rec[5]? = some f5 :=
              ⟨_, List.getElem?_eq_getElem (by omega)⟩
            rcases hp with hp | ⟨v6, hp, hv6⟩
            · simp [procRow, h0, hno, hp0, hv, h1, h2, h3, h4, h5, h6, hp]
            · simp [procRow, h0, hno, hp0, hv, h1, h2, h3, h4, h5, h6, hp, hv6]
  conv_lhs => rw [parseRows]
  rw [if_pos hlen, hskip]

/-- Witness for C5: a header row of the expected width is skipped and the
loop result is the result on the remaining rows. -/
theorem parseRows_skips_bad_row_witness :
    parseRows "d" 7 [["no", "c", "n", "f", "p", "e", "a"]] [] =
      parseRows "d" 7 [] [] := by
  exact parseRows_skips_bad_row "d" 7 ["no", "c", "n", "f", "p", "e", "a"] [] []
    (by decide) (Or.inl rfl)

/-- A successful run of the read loop computes the accumulated list plus
the per-row kept records, in file order. -/
theorem parseRows_ok_filterMap (folder : String) (expected : Nat) :
    ∀ rows acc lst, parseRows folder expected rows acc = .ok lst →
      lst = acc ++ rows.filterMap (keptContact folder) := by
  intro rows
  induction rows with
  | nil =>
    intro acc lst h
    simp only [parseRows, ParseResult.ok.injEq] at h
    simp [h]
  | cons rec rest ih =>
    intro acc lst h
    rw [parseRows] at h
    by_cases hl : rec.length = expected
    · rw [if_pos hl] at h
      cases hp : procRow folder rec with
      | panicked => rw [hp] at h; cases h
      | skip =>
        rw [hp] at h
        have hres := ih acc lst h
        simp [List.filterMap_cons, keptContact, hp, hres]
      | keep c =>
        rw [hp] at h
        have hres := ih (acc ++ [c]) lst h
        simp [List.filterMap_cons, keptContact, hp, hres]
    · rw [if_neg hl] at h; cases h

/-- Every kept record has a non-negative answer and a vCard path derived
from the row's fourth column. -/
theorem keptContact_props (folder : String) (rec : List String) (c : contact)
    (h : keptContact folder rec = some c) :
    0 ≤ c.Answer ∧ ∃ base, rec[3]? = some base ∧
      c.VcfFname = pathJoin folder (base ++ ".vcf") := by
  have hp : procRow folder rec = .keep c := by
    unfold keptContact at h
    cases hq : procRow folder rec with
    | skip => rw [hq] at h; simp at h
    | panicked => rw [hq] at h; simp at h
    | keep c2 =>
      rw [hq] at h
      simp only [Option.some.injEq] at h
      rw [h]
  clear h
  unfold procRow at hp
  repeat' split at hp
  all_goals cases hp
  all_goals simp_all

/-- C6: every list returned successfully by `parseInputList` is exactly
the per-row kept records in file order (file order minus skipped rows),
every record has a non-negative answer (cancelled records are filtered at
parse time), and every record's `VcfFname` is the data folder joined with
the row's file-base-name column plus the `.vcf` extension. -/
theorem parseInputList_ok_invariants (folder : String)
    (rows : List (List String)) (lst : List contact)
    (h : parseInputList folder (some rows) = .ok lst) :
    lst = rows.filterMap (keptContact folder) ∧
    (∀ c ∈ lst, 0 ≤ c.Answer) ∧
    ∀ c ∈ lst, ∃ rec ∈ rows, ∃ base, rec[3]? = some base ∧
      c.VcfFname = pathJoin folder (base ++ ".vcf") := by
  have hfm : lst = rows.filterMap (keptContact folder) := by
    cases rows with
    | nil =>
      simp only [parseInputList, ParseResult.ok.injEq] at h
      simp [← h]
    | cons r0 rest =>
      simpa using parseRows_ok_filterMap folder r0.length (r0 :: rest) [] lst h
  refine ⟨hfm, fun c hc => ?_, fun c hc => ?_⟩
  · rw [hfm] at hc
    obtain ⟨rec, -, hk⟩ := List.mem_filterMap.mp hc
    exact (keptContact_props folder rec c hk).1
  · rw [hfm] at hc
    obtain ⟨rec, hrec, hk⟩ := List.mem_filterMap.mp hc
    obtain ⟨base, hb, hv⟩ := (keptContact_props folder rec c hk).2
    exact ⟨rec, hrec, base, hb, hv⟩

/-- Witness for C6 at a concrete three-row file (header, an accepted row,
a cancelled row): the result is the kept-record projection of the rows. -/
theorem parseInputList_ok_invariants_witness :
    ([⟨"42", "王小明", "d/wang.vcf", "+886 912-345-678", "a@b", 1⟩] :
        List contact) =
      ([["no", "c", "n", "f", "p", "e", "a"],
        ["1", "42", "王小明", "wang", "0912345678", "a@b", "1"],
        ["2", "42", "李四", "li", "123", "", "-1"]]).filterMap
        (keptContact "d") := by
  exact (parseInputList_ok_invariants "d"
    [["no", "c", "n", "f", "p", "e", "a"],
     ["1", "42", "王小明", "wang", "0912345678", "a@b", "1"],
     ["2", "42", "李四", "li", "123", "", "-1"]]
    [⟨"42", "王小明", "d/wang.vcf", "+886 912-345-678", "a@b", 1⟩]
    (by decide)).1

/-- C7 (counterexample): a file whose only row has fewer than the seven
fixed columns makes the source index the record out of range — a runtime
panic, not a FormatError return for the whole parse. -/
theorem parseInputList_short_row_panics :
    parseInputList "d" (some [["1", "a", "b"]]) = .panicked ∧
    ParseResult.panicked ≠ ParseResult.csvErr := by
  exact ⟨by decide, by decide⟩

/-- Rows with a field count different from the csv-expected one make the
loop fail (with the reader's field-count error, unless an earlier
malformed row already panicked). -/
theorem parseRows_mismatch (folder : String) (expected : Nat) :
    ∀ rows acc, (∃ r ∈ rows, r.length ≠ expected) →
      parseRows folder expected rows acc = .csvErr ∨
      parseRows folder expected rows acc = .panicked := by
  intro rows
  induction rows with
  | nil => intro acc h; simp at h
  | cons rec rest ih =>
    intro acc h
    by_cases hl : rec.length = expected
    · have hrest : ∃ r ∈ rest, r.length ≠ expected := by
        rcases h with ⟨r, hr, hne⟩
        rcases List.mem_cons.mp hr with hr | hr
        · exact absurd (hr ▸ hl) hne
        · exact ⟨r, hr, hne⟩
      rw [parseRows, if_pos hl]
      cases hp : procRow folder rec with
      | panicked => right; rfl
      | skip => exact ih acc hrest
      | keep c => exact ih (acc ++ [c]) hrest
    · rw [parseRows, if_neg hl]
      left; rfl

/-- C7 (amended): `parseInputList` fails with a read error when the input
file cannot be opened; a row whose column count differs from the first
row's (the csv reader's expected field count) is fatal for the whole
parse — it yields the reader's field-count error, or a panic if an
earlier short kept row was indexed out of range first. But when every
row uniformly has fewer than seven columns, the fixed-column access is an
index-out-of-range runtime panic, not an error return. -/
theorem parseInputList_fatal_errors (folder : String) :
    parseInputList folder none = .readErr ∧
    ∀ r0 rest, (∃ r ∈ rest, r.length ≠ r0.length) →
      parseInputList folder (some (r0 :: rest)) = .csvErr ∨
      parseInputList folder (some (r0 :: rest)) = .panicked := by
  refine ⟨rfl, fun r0 rest h => ?_⟩
  have : ∃ r ∈ r0 :: rest, r.length ≠ r0.length := by
    rcases h with ⟨r, hr, hne⟩
    exact ⟨r, List.mem_cons_of_mem r0 hr, hne⟩
  exact parseRows_mismatch folder r0.length (r0 :: rest) [] this

/-- Witness for the amended C7: a two-row file whose second row is
narrower than the first aborts the whole parse. -/
theorem parseInputList_fatal_errors_witness :
    parseInputList "d" (some [["no", "x"], ["1"]]) = .csvErr ∨
    parseInputList "d" (some [["no", "x"], ["1"]]) = .panicked := by
  exact (parseInputList_fatal_errors "d").2 ["no", "x"] [["1"]]
    ⟨["1"], by simp, by decide⟩

theorem okOracle_setCellFail (s c : String) :
    okOracle.setCellFail s c = false := rfl

theorem okOracle_addPicFail (s c : String) :
    okOracle.addPicFail s c = false := rfl

/-- Under the all-success oracle, the listing loop appends exactly the
A/B cell writes of the remaining contacts, rows numbered from `idx+2`. -/
theorem fillLoop_ok (cs : List contact) : ∀ (idx : Nat) (wb : Wb),
    fillLoop okOracle cs idx wb =
      { wb with cells := wb.cells ++ (cs.enumFrom idx).flatMap (fun p =>
          [("Sheet1", "A" ++ toString (p.1 + 2), p.2.Class),
           ("Sheet1", "B" ++ toString (p.1 + 2), p.2.Fullname)]) } := by
  induction cs with
  | nil => intro idx wb; simp [fillLoop]
  | cons c rest ih =>
    intro idx wb
    rw [fillLoop]
    simp [okOracle_setCellFail, setCell, ih, List.enumFrom_cons,
      List.append_assoc]

/-- Under the all-success oracle, the QR-grid loop appends exactly one
caption cell, one picture and (for even indices) one row height per
remaining contact, at the positions computed from the running index. -/
theorem qrLoop_ok (cs : List contact) : ∀ (idx : Nat) (wb : Wb),
    qrLoop okOracle cs idx wb =
      { wb with
        cells := wb.cells ++ (cs.enumFrom idx).map (fun p =>
          ("Sheet2", (if p.1 % 2 = 0 then "A" else "B") ++
              toString (p.1 / 2 * 2 + 1),
            p.2.Class ++ " " ++ p.2.Fullname)),
        pics := wb.pics ++ (cs.enumFrom idx).map (fun p =>
          ("Sheet2", (if p.1 % 2 = 0 then "A" else "B") ++
              toString (p.1 / 2 * 2 + 1 + 1),
            goReplaceAll p.2.VcfFname ".vcf" ".png")),
        rowHeights := wb.rowHeights ++ (cs.enumFrom idx).filterMap (fun p =>
          if p.1 % 2 = 0 then some ("Sheet2", p.1 / 2 * 2 + 1 + 1, 155)
          else none) } := by
  induction cs with
  | nil => intro idx wb; simp [qrLoop]
  | cons c rest ih =>
    intro idx wb
    rw [qrLoop]
    by_cases he : idx % 2 = 0
    · simp [okOracle_setCellFail, okOracle_addPicFail, he, setCell, addPic,
        setRowHeight, ih, List.enumFrom_cons, List.append_assoc]
    · simp [okOracle_setCellFail, okOracle_addPicFail, he, setCell, addPic,
        setRowHeight, ih, List.enumFrom_cons, List.append_assoc]

/-- C8: with every external call succeeding, the workbook holds the
header cells `A1="class"`, `B1="name"`, record `i` (0-based) on row `i+2`
in columns A/B in list order on Sheet1, and on Sheet2 contact `i` has its
caption cell on row `2*(i/2)+1` and its picture on row `2*(i/2)+2`, in
column A for even `i` and column B for odd `i`. -/
theorem generateExcelFile_layout (contactList : List contact) :
    ∃ wb : Wb, generateExcelFile okOracle contactList = .ok wb ∧
      wb.cells = specListCells contactList ++ specQRCells contactList ∧
      wb.pics = specQRPics contactList := by
  have hfun1 : (fun p : Nat × contact =>
      (("Sheet2", (if p.1 % 2 = 0 then "A" else "B") ++
          toString (p.1 / 2 * 2 + 1),
        p.2.Class ++ " " ++ p.2.Fullname) : String × String × String)) =
      (fun p : Nat × contact =>
      ("Sheet2", specQRCol p.1 ++ toString (2 * (p.1 / 2) + 1),
        p.2.Class ++ " " ++ p.2.Fullname)) := by
    funext p
    simp [specQRCol, Nat.mul_comm]
  have hfun2 : (fun p : Nat × contact =>
      (("Sheet2", (if p.1 % 2 = 0 then "A" else "B") ++
          toString (p.1 / 2 * 2 + 1 + 1),
        goReplaceAll p.2.VcfFname ".vcf" ".png") : String × String × String)) =
      (fun p : Nat × contact =>
      ("Sheet2", specQRCol p.1 ++ toString (2 * (p.1 / 2) + 2),
        goReplaceAll p.2.VcfFname ".vcf" ".png")) := by
    funext p
    have hm : p.1 / 2 * 2 + 1 + 1 = 2 * (p.1 / 2) + 2 := by omega
    simp [specQRCol, hm]
  refine ⟨_, rfl, ?_, ?_⟩
  · rw [qrLoop_ok]
    simp only [fillLoop_ok, emptyWb, setCell]
    rw [hfun1]
    simp [specListCells, specQRCells, List.enum]
  · rw [qrLoop_ok]
    simp only [fillLoop_ok, emptyWb, setCell]
    rw [hfun2]
    simp [specQRPics, List.enum]

/-- C9 (counterexample): when the per-contact cell write `Sheet1!A2`
fails, the build still reports success while the workbook is missing the
first contact's listing row — contradicting the claim that any
per-contact failure aborts the build with an error. -/
theorem generateExcelFile_partial_success :
    isOkB (generateExcelFile orcFailA2
      [⟨"42", "王小明", "d/wang.vcf", "+886 912-345-678", "a@b", 1⟩]) = true ∧
    ("Sheet1", "A2", "42") ∉ wbCellsOf (generateExcelFile orcFailA2
      [⟨"42", "王小明", "d/wang.vcf", "+886 912-345-678", "a@b", 1⟩]) := by
  exact ⟨by decide, by decide⟩

/-- C9 (amended): a failing per-contact cell-write or image-embed step
only stops the remaining writes of that sheet's loop; the build continues
and `generateExcelFile` reports success. Only the header writes, sheet
creation, page margins, style creation or the final save abort the build
with an error. -/
theorem generateExcelFile_loop_failures_not_fatal (orc : ExcelOracle)
    (contactList : List contact)
    (h1 : orc.setCellFail "Sheet1" "A1" = false)
    (h2 : orc.setCellFail "Sheet1" "B1" = false)
    (h3 : orc.newSheetFail = false) (h4 : orc.marginsFail = false)
    (h5 : orc.txtStyleFail = false) (h6 : orc.imgStyleFail = false)
    (h7 : orc.saveFail = false) :
    ∃ wb, generateExcelFile orc contactList = .ok wb := by
  simp [generateExcelFile, fillListSheet, genQRCodeSheet,
    h1, h2, h3, h4, h5, h6, h7]

/-- Witness for the amended C9: under the oracle failing exactly at
`Sheet1!A2`, the build of a one-contact list succeeds. -/
theorem generateExcelFile_loop_failures_not_fatal_witness :
    ∃ wb, generateExcelFile orcFailA2
      [⟨"42", "王小明", "d/wang.vcf", "+886 912-345-678", "a@b", 1⟩] =
        .ok wb := by
  exact generateExcelFile_loop_failures_not_fatal orcFailA2 _
    (by decide) (by decide) rfl rfl rfl rfl rfl
